import Mathlib

/-!
Shallow embedding of `mnubo/api_manager.py` (smartobjects-python-client).

The module is a thin authenticated HTTP client: an `APIManager` holding
credentials, a hostname, a compression flag and a current access token.
External collaborators (the `requests` session, the `json` encoder, the
`gzip` encoder, the wall clock, the network) are modelled as explicit
inputs: responses arrive as oracle values, the clock is an `Int`
timestamp in seconds, and the gzip library is a parameter consisting of a
deflate function and its inverse.

Error model: the Python code raises
  - `ValueError` for empty credentials, unreachable host and 400/409
    responses (the spec names these `ConfigurationError` and
    `ValidationError`);
  - `requests.HTTPError` from `raise_for_status` (the spec names this
    `HttpError`, and `AuthenticationError` when it comes from the token
    endpoint);
  - a JSON decode error from `r.json()` on a malformed body;
  - `KeyError` on a missing JSON field.
-/

set_option autoImplicit false

namespace Mnubo

/-- The exception kinds the embedded code can raise. -/
inductive PyError where
  /-- Python `ValueError msg`; raised for empty credentials, unreachable
      host, and 400/409 responses. -/
  | valueError (msg : String)
  /-- `requests.HTTPError` raised by `raise_for_status`, carrying the
      response status and body. -/
  | httpError (status : Nat) (body : String)
  /-- The error raised by `r.json()` when the body is not valid JSON. -/
  | jsonParseError
  /-- Python `KeyError k` on a missing dictionary key. -/
  | keyError (k : String)
  /-- Python `TypeError`, e.g. `timedelta` applied to a non-number. -/
  | typeError
  deriving DecidableEq

/-- A Python value as far as `json.dumps` is concerned (ints only: the
    bodies this client sends contain no floats). -/
inductive JValue where
  | null
  | bool (b : Bool)
  | int (n : Int)
  | str (s : String)
  | arr (xs : List JValue)
  | obj (kvs : List (String × JValue))

/-- One hex digit, lower case, as `json.dumps` escapes produce. -/
def hexDigit (n : Nat) : Char :=
  "0123456789abcdef".toList.getD n '0'

/-- Four-digit hex, for a JSON `\uXXXX` escape. -/
def hex4 (n : Nat) : String :=
  String.mk [hexDigit (n / 4096 % 16), hexDigit (n / 256 % 16),
             hexDigit (n / 16 % 16), hexDigit (n % 16)]

/-- `json.dumps` escaping of one character (defaults: ensure ASCII,
    astral code points as surrogate pairs). -/
def jsonEscapeChar (c : Char) : String :=
  if c = '"' then "\\\""
  else if c = '\\' then "\\\\"
  else if c = '\n' then "\\n"
  else if c = '\t' then "\\t"
  else if c = '\r' then "\\r"
  else if c.toNat = 8 then "\\b"
  else if c.toNat = 12 then "\\f"
  else if c.toNat < 32 then "\\u" ++ hex4 c.toNat
  else if c.toNat < 127 then String.singleton c
  else if c.toNat < 65536 then "\\u" ++ hex4 c.toNat
  else
    let v := c.toNat - 65536
    "\\u" ++ hex4 (55296 + v / 1024) ++ "\\u" ++ hex4 (56320 + v % 1024)

/-- `json.dumps` escaping of a string body (without the quotes). -/
def jsonEscape (s : String) : String :=
  String.join (s.toList.map jsonEscapeChar)

mutual

/-- Python `json.dumps` with default options: separators are a comma
    plus space and a colon plus space. -/
def json_dumps : JValue → String
  | JValue.null => "null"
  | JValue.bool true => "true"
  | JValue.bool false => "false"
  | JValue.int n => toString n
  | JValue.str s => "\"" ++ jsonEscape s ++ "\""
  | JValue.arr xs => "[" ++ json_dumps_items xs ++ "]"
  | JValue.obj kvs => "\x7b" ++ json_dumps_fields kvs ++ "\x7d"

/-- Comma-separated dumps of array items. -/
def json_dumps_items : List JValue → String
  | [] => ""
  | [x] => json_dumps x
  | x :: y :: rest => json_dumps x ++ ", " ++ json_dumps_items (y :: rest)

/-- Comma-separated dumps of object fields. -/
def json_dumps_fields : List (String × JValue) → String
  | [] => ""
  | [(k, v)] => "\"" ++ jsonEscape k ++ "\": " ++ json_dumps v
  | (k, v) :: kv :: rest =>
      "\"" ++ jsonEscape k ++ "\": " ++ json_dumps v ++ ", " ++
        json_dumps_fields (kv :: rest)

end

/-- Lookup in a parsed JSON object, as `json_response[key]` does. -/
def jsonLookup (kvs : List (String × JValue)) (k : String) : Option JValue :=
  match kvs with
  | [] => none
  | (k0, v) :: rest => if k0 = k then some v else jsonLookup rest k

/-- The base64 alphabet. -/
def b64Alphabet : List Char :=
  "ABCDEFGHIJKLMNOPQRSTUVWXYZabcdefghijklmnopqrstuvwxyz0123456789+/".toList

/-- The base64 digit for a 6-bit group. -/
def b64Char (n : Nat) : Char := b64Alphabet.getD n 'A'

/-- RFC 4648 base64 of a byte list, as `base64.b64encode` computes it. -/
def b64encodeBytes : List Nat → String
  | [] => ""
  | [a] =>
      String.mk [b64Char (a / 4), b64Char (a % 4 * 16), '=', '=']
  | [a, b] =>
      String.mk [b64Char (a / 4), b64Char (a % 4 * 16 + b / 16),
                 b64Char (b % 16 * 4), '=']
  | a :: b :: c :: rest =>
      String.mk [b64Char (a / 4), b64Char (a % 4 * 16 + b / 16),
                 b64Char (b % 16 * 4 + c / 64), b64Char (c % 64)] ++
        b64encodeBytes rest

/-- The bytes of a Python 2 `str` (credentials are ASCII, so code points
    are bytes). -/
def strBytes (s : String) : List Nat := s.toList.map Char.toNat

/-- `base64.b64encode` on a Python 2 string. -/
def b64encode (s : String) : String := b64encodeBytes (strBytes s)

/-- The access token record built by `fetch_access_token`: the bearer
    string, the lifetime in seconds (`timedelta(0, expires_in)`) and the
    timestamp taken just before the token request was sent. -/
structure AccessToken where
  access_token : String
  expires_in : Int
  requested_at : Int
  deriving DecidableEq

/-- An HTTP response as the embedded code observes it: status code, raw
    body, and the result of `r.json()` (`none` when the body is
    malformed and `r.json()` raises). -/
structure HttpResponse where
  status_code : Nat
  content : String
  jsonBody : Option JValue

/-- `requests` `raise_for_status`: raises `HTTPError` exactly for status
    codes in 400..599, returns normally otherwise. -/
def raise_for_status (r : HttpResponse) : Except PyError Unit :=
  if 400 ≤ r.status_code ∧ r.status_code < 600 then
    Except.error (PyError.httpError r.status_code r.content)
  else Except.ok ()

namespace APIManager

/-- `APIManager.validate_response`: a `ValueError` carrying the raw body
    on 400 or 409, otherwise `raise_for_status`. -/
def validate_response (r : HttpResponse) : Except PyError Unit :=
  if r.status_code = 400 ∨ r.status_code = 409 then
    Except.error (PyError.valueError r.content)
  else raise_for_status r

/-- `APIManager.is_access_token_valid`: whether
    `requested_at + expires_in > now`. The clock read
    (`datetime.datetime.now()`) is the `now` argument; the function
    computes only this comparison, with no side effect. -/
def is_access_token_valid (tok : AccessToken) (now : Int) : Bool :=
  tok.requested_at + tok.expires_in > now

/-- `APIManager.get_token_authorization_header` for the given
    credentials. -/
def get_token_authorization_header (client_id client_secret : String) :
    List (String × String) :=
  [("content-type", "application/x-www-form-urlencoded"),
   ("Authorization", "Basic " ++ b64encode (client_id ++ ":" ++ client_secret))]

/-- `APIManager.get_authorization_header` for the stored token. -/
def get_authorization_header (tok : AccessToken) : List (String × String) :=
  [("content-type", "application/json"),
   ("Authorization", "Bearer " ++ tok.access_token)]

/-- `APIManager.get_api_url` for the configured hostname. -/
def get_api_url (hostname : String) : String := hostname ++ "/api/v3/"

/-- `APIManager.get_auth_url` for the configured hostname. -/
def get_auth_url (hostname : String) : String :=
  hostname ++ "/oauth/token?grant_type=client_credentials&scope=ALL"

/-- `APIManager.fetch_access_token`, with the wall clock and the token
    endpoint response as explicit inputs. Order faithful to the source:
    record `requested_at`, send the POST, parse the body with `r.json()`
    (raising on malformed JSON), then `raise_for_status`, then read the
    `access_token` and `expires_in` fields. -/
def fetch_access_token (now : Int) (r : HttpResponse) :
    Except PyError AccessToken :=
  let requested_at := now
  match r.jsonBody with
  | none => Except.error PyError.jsonParseError
  | some js =>
    match raise_for_status r with
    | Except.error e => Except.error e
    | Except.ok _ =>
      match js with
      | JValue.obj kvs =>
        match jsonLookup kvs "access_token" with
        | none => Except.error (PyError.keyError "access_token")
        | some tokVal =>
          match jsonLookup kvs "expires_in" with
          | none => Except.error (PyError.keyError "expires_in")
          | some (JValue.int e) =>
            match tokVal with
            | JValue.str tokenStr =>
                Except.ok ⟨tokenStr, e, requested_at⟩
            | _ => Except.error PyError.typeError
          | some _ => Except.error PyError.typeError
      | _ => Except.error PyError.typeError

end APIManager

/-- The gzip library (`gzip.GzipFile`) as an external collaborator: a
    deflate body encoder and its inverse. One gzip member holds the
    deflate encoding of the data written to one `GzipFile`. -/
structure GzipLib where
  deflate : String → List Nat
  inflate : List Nat → Option String

/-- A gzip stream on the wire: the list of its members. -/
abbrev GzipStream := List (List Nat)

/-- Decompression of a whole gzip stream: the concatenation of the
    inflated members, failing if any member is invalid. -/
def gzip_decompress (lib : GzipLib) : GzipStream → Option String
  | [] => some ""
  | m :: ms =>
    match lib.inflate m, gzip_decompress lib ms with
    | some s, some rest => some (s ++ rest)
    | _, _ => none

/-- The bytes a POST/PUT sends as its payload. -/
inductive Payload where
  /-- No body (GET/DELETE). -/
  | empty
  /-- The JSON-encoded body, sent directly (the `json=body` path). -/
  | raw (s : String)
  /-- A gzip stream (the `data=encoded` path with compression on). -/
  | gzipStream (members : GzipStream)

/-- A request handed to the session, as built by the public operations. -/
structure SentRequest where
  method : String
  url : String
  headers : List (String × String)
  params : List (String × String)
  payload : Payload

/-- Python `dict.update` with a single key: replace the value if the key
    is present, append otherwise. -/
def dictUpdate (d : List (String × String)) (k v : String) :
    List (String × String) :=
  match d with
  | [] => [(k, v)]
  | (k0, v0) :: rest =>
    if k0 = k then (k, v) :: rest else (k0, v0) :: dictUpdate rest k v

/-- Dictionary lookup on a header list. -/
def dictLookup (d : List (String × String)) (k : String) : Option String :=
  match d with
  | [] => none
  | (k0, v) :: rest => if k0 = k then some v else dictLookup rest k

namespace APIManager

/-- `APIManager._gzip_encode`: a fresh StringIO, one `GzipFile` opened
    for writing, one write of the whole data, one close — a single-member
    gzip stream holding the deflate encoding of the data. -/
def gzip_encode (lib : GzipLib) (data : String) : GzipStream :=
  [lib.deflate data]

/-- The request `APIManager.get` builds after authentication: URL
    `api_url + route`, auth headers, query params. -/
def build_get (hostname route : String) (params : List (String × String))
    (tok : AccessToken) : SentRequest :=
  { method := "GET", url := get_api_url hostname ++ route,
    headers := get_authorization_header tok, params := params,
    payload := Payload.empty }

/-- The request `APIManager.post` builds after authentication: with
    compression on, the headers gain `content-encoding: gzip` and the
    payload is `_gzip_encode(json.dumps(body))`; with compression off the
    payload is the JSON-encoded body (the `json=body` path). -/
def build_post (lib : GzipLib) (compression_enabled : Bool)
    (hostname route : String) (body : JValue) (tok : AccessToken) :
    SentRequest :=
  let url := get_api_url hostname ++ route
  let headers := get_authorization_header tok
  if compression_enabled then
    { method := "POST", url := url,
      headers := dictUpdate headers "content-encoding" "gzip", params := [],
      payload := Payload.gzipStream (gzip_encode lib (json_dumps body)) }
  else
    { method := "POST", url := url, headers := headers, params := [],
      payload := Payload.raw (json_dumps body) }

/-- The request `APIManager.put` builds after authentication; same body
    handling as `build_post`. -/
def build_put (lib : GzipLib) (compression_enabled : Bool)
    (hostname route : String) (body : JValue) (tok : AccessToken) :
    SentRequest :=
  let url := get_api_url hostname ++ route
  let headers := get_authorization_header tok
  if compression_enabled then
    { method := "PUT", url := url,
      headers := dictUpdate headers "content-encoding" "gzip", params := [],
      payload := Payload.gzipStream (gzip_encode lib (json_dumps body)) }
  else
    { method := "PUT", url := url, headers := headers, params := [],
      payload := Payload.raw (json_dumps body) }

/-- The request `APIManager.delete` builds after authentication. -/
def build_delete (hostname route : String) (tok : AccessToken) :
    SentRequest :=
  { method := "DELETE", url := get_api_url hostname ++ route,
    headers := get_authorization_header tok, params := [],
    payload := Payload.empty }

end APIManager

/-- Observable events of one public operation. -/
inductive Event where
  /-- A `fetch_access_token` call (a POST to the token endpoint). -/
  | fetchToken
  /-- A resource request handed to the session. -/
  | request (req : SentRequest)

/-- The `authenticate` decorator: if the stored token is invalid, fetch a
    new one and assign it to `self.access_token` before calling the
    wrapped function; the wrapped function then reads the updated token.
    Returns the result, the token stored after the call, and the trace of
    network events. A failing fetch propagates before the wrapped
    function runs. -/
def authenticate (now : Int) (authResp : HttpResponse) (tok : AccessToken)
    {α : Type} (func : AccessToken → Except PyError α × List Event) :
    Except PyError α × AccessToken × List Event :=
  if APIManager.is_access_token_valid tok now then
    let r := func tok
    (r.1, tok, r.2)
  else
    match APIManager.fetch_access_token now authResp with
    | Except.error e => (Except.error e, tok, [Event.fetchToken])
    | Except.ok t =>
      let r := func t
      (r.1, t, Event.fetchToken :: r.2)

namespace APIManager

/-- The send-and-validate tail shared by the public operations: hand the
    request to the session, run `validate_response` on the response,
    return the response on success and raise otherwise. -/
def resource_call (oracle : SentRequest → HttpResponse)
    (req : SentRequest) : Except PyError HttpResponse × List Event :=
  ((validate_response (oracle req)).map (fun _ => oracle req),
   [Event.request req])

/-- `APIManager.get`: the `authenticate` wrapper around build, send and
    validate. -/
def get_op (hostname : String) (tok : AccessToken) (now : Int)
    (authResp : HttpResponse) (oracle : SentRequest → HttpResponse)
    (route : String) (params : List (String × String)) :
    Except PyError HttpResponse × AccessToken × List Event :=
  authenticate now authResp tok
    (fun t => resource_call oracle (build_get hostname route params t))

/-- `APIManager.post`: the `authenticate` wrapper around build, send and
    validate. -/
def post_op (lib : GzipLib) (compression_enabled : Bool) (hostname : String)
    (tok : AccessToken) (now : Int) (authResp : HttpResponse)
    (oracle : SentRequest → HttpResponse) (route : String) (body : JValue) :
    Except PyError HttpResponse × AccessToken × List Event :=
  authenticate now authResp tok
    (fun t =>
      resource_call oracle (build_post lib compression_enabled hostname route body t))

/-- `APIManager.put`: the `authenticate` wrapper around build, send and
    validate. -/
def put_op (lib : GzipLib) (compression_enabled : Bool) (hostname : String)
    (tok : AccessToken) (now : Int) (authResp : HttpResponse)
    (oracle : SentRequest → HttpResponse) (route : String) (body : JValue) :
    Except PyError HttpResponse × AccessToken × List Event :=
  authenticate now authResp tok
    (fun t =>
      resource_call oracle (build_put lib compression_enabled hostname route body t))

/-- `APIManager.delete`: the `authenticate` wrapper around build, send
    and validate. -/
def delete_op (hostname : String) (tok : AccessToken) (now : Int)
    (authResp : HttpResponse) (oracle : SentRequest → HttpResponse)
    (route : String) :
    Except PyError HttpResponse × AccessToken × List Event :=
  authenticate now authResp tok
    (fun t => resource_call oracle (build_delete hostname route t))

end APIManager

/-- Network actions visible during construction. -/
inductive NetEvent where
  /-- The preflight `requests.head(hostname)` probe. -/
  | headProbe
  /-- The initial token fetch. -/
  | tokenFetch
  deriving DecidableEq

/-- The state a successful construction leaves behind. -/
structure APIManagerState where
  client_id : String
  client_secret : String
  hostname : String
  compression_enabled : Bool
  access_token : AccessToken

namespace APIManager

/-- `APIManager.__init__`, with the probe outcome
    (`headConnectionError` is true when `requests.head` raises a
    `ConnectionError`), the clock and the token endpoint response as
    explicit inputs. Returns the constructed state or the raised error,
    plus the trace of network actions in order. -/
def init (client_id client_secret hostname : String)
    (compression_enabled : Bool) (headConnectionError : Bool) (now : Int)
    (authResp : HttpResponse) :
    Except PyError APIManagerState × List NetEvent :=
  if client_id = "" then
    (Except.error (PyError.valueError "client_id cannot be null or empty."), [])
  else if client_secret = "" then
    (Except.error (PyError.valueError "client_secret cannot be null or empty."),
     [])
  else if headConnectionError then
    (Except.error
       (PyError.valueError ("Host at " ++ hostname ++ " is not reachable")),
     [NetEvent.headProbe])
  else
    match fetch_access_token now authResp with
    | Except.error e => (Except.error e, [NetEvent.headProbe, NetEvent.tokenFetch])
    | Except.ok tok =>
      (Except.ok ⟨client_id, client_secret, hostname, compression_enabled, tok⟩,
       [NetEvent.headProbe, NetEvent.tokenFetch])

end APIManager

/-!
Default-argument binding model. Python evaluates a default-argument
expression once, when the `def` statement runs, and every later call
that omits the argument receives that same object. Containers are
modelled by heap addresses and an allocation counter, so aliasing is
equality of addresses.
-/

/-- The default-container addresses created when the module body runs:
    one dict per defaulted parameter (`params` of `get`, `body` of
    `post`, `body` of `put`), evaluated once at definition time. -/
structure ModuleDefaults where
  get_params_default : Nat
  post_body_default : Nat
  put_body_default : Nat
  deriving DecidableEq

/-- Running the module body: allocate the three default dicts, in
    definition order, returning them and the next free address. -/
def defineModuleDefaults : ModuleDefaults × Nat := (⟨0, 1, 2⟩, 3)

/-- Argument binding for `get` as Python performs it: an explicit
    argument is used as passed; an omitted argument is bound to the
    def-time default object. Returns the bound address and the new
    allocation counter (no allocation happens on omission). -/
def bindGetParams (d : ModuleDefaults) (c : Nat) (explicit : Option Nat) :
    Nat × Nat :=
  match explicit with
  | some addr => (addr, c)
  | none => (d.get_params_default, c)

/-- Modelled from the spec: per-call empty-container construction for an
    omitted `params` argument — each omitting call allocates a fresh
    container. -/
def bindGetParamsFresh (c : Nat) (explicit : Option Nat) : Nat × Nat :=
  match explicit with
  | some addr => (addr, c)
  | none => (c, c + 1)

/-! Helper lemmas shared by the claim theorems. -/

/-- `raise_for_status` raises exactly on a 4xx/5xx status. -/
theorem raise_for_status_fail (r : HttpResponse) (h1 : 400 ≤ r.status_code)
    (h2 : r.status_code < 600) :
    raise_for_status r =
      Except.error (PyError.httpError r.status_code r.content) :=
  if_pos ⟨h1, h2⟩

/-- A successful `fetch_access_token` records the clock value taken
    before the request as `requested_at`. -/
theorem fetch_access_token_requested_at (now : Int) (r : HttpResponse)
    (t : AccessToken)
    (h : APIManager.fetch_access_token now r = Except.ok t) :
    t.requested_at = now := by
  unfold APIManager.fetch_access_token at h
  repeat' split at h
  all_goals cases h
  all_goals rfl

/-- The `authenticate` wrapper on a valid token: no fetch, the wrapped
    function runs on the stored token, the token is unchanged. -/
theorem authenticate_valid {α : Type} (now : Int) (authResp : HttpResponse)
    (tok : AccessToken) (func : AccessToken → Except PyError α × List Event)
    (hv : APIManager.is_access_token_valid tok now = true) :
    authenticate now authResp tok func = ((func tok).1, tok, (func tok).2) := by
  simp [authenticate, hv]

/-- The `authenticate` wrapper on an expired token with a successful
    fetch: one fetch event, then the wrapped function runs on the new
    token, which is also stored. -/
theorem authenticate_expired {α : Type} (now : Int) (authResp : HttpResponse)
    (tok t : AccessToken) (func : AccessToken → Except PyError α × List Event)
    (hv : APIManager.is_access_token_valid tok now = false)
    (hf : APIManager.fetch_access_token now authResp = Except.ok t) :
    authenticate now authResp tok func =
      ((func t).1, t, Event.fetchToken :: (func t).2) := by
  simp [authenticate, hv, hf]

/-- The `authenticate` wrapper on an expired token with a failing fetch:
    the error propagates, the stored token is untouched, and only the
    fetch event happens. -/
theorem authenticate_fetch_error {α : Type} (now : Int)
    (authResp : HttpResponse) (tok : AccessToken)
    (func : AccessToken → Except PyError α × List Event) (e : PyError)
    (hv : APIManager.is_access_token_valid tok now = false)
    (hf : APIManager.fetch_access_token now authResp = Except.error e) :
    authenticate now authResp tok func =
      (Except.error e, tok, [Event.fetchToken]) := by
  simp [authenticate, hv, hf]

/-! Claim theorems. -/

/-- C1, counterexample: a 304 response is not 2xx, is neither 400 nor
    409, and yet `validate_response` returns normally instead of failing
    with an `HttpError` — `raise_for_status` only raises for statuses in
    400..599. -/
theorem C1_counterexample :
    ¬ (200 ≤ 304 ∧ 304 < 300) ∧ 304 ≠ 400 ∧ 304 ≠ 409 ∧
    APIManager.validate_response ⟨304, "not modified", none⟩ =
      Except.ok () := by
  refine ⟨by decide, by decide, by decide, rfl⟩

/-- C1, amended: `validate_response` fails with a `ValueError` carrying
    the raw body on status 400 or 409; it fails with an `HttpError`
    carrying status and body on any other status in 400..599; and it
    returns normally on every status below 400 or at/above 600 — in
    particular on every 2xx, but also on 1xx/3xx responses. -/
theorem C1_validate_response_amended (r : HttpResponse) :
    (r.status_code = 400 ∨ r.status_code = 409 →
      APIManager.validate_response r =
        Except.error (PyError.valueError r.content))
    ∧ (400 ≤ r.status_code → r.status_code < 600 → r.status_code ≠ 400 →
      r.status_code ≠ 409 →
      APIManager.validate_response r =
        Except.error (PyError.httpError r.status_code r.content))
    ∧ (r.status_code < 400 ∨ 600 ≤ r.status_code →
      APIManager.validate_response r = Except.ok ()) := by
  unfold APIManager.validate_response raise_for_status
  refine ⟨fun h => if_pos h, fun h1 h2 h3 h4 => ?_, fun h => ?_⟩
  · rw [if_neg (fun hc => hc.elim h3 h4), if_pos ⟨h1, h2⟩]
  · rw [if_neg (by omega), if_neg (by omega)]

/-- C1, witness: the three branches of the amended statement at statuses
    400, 500 and 200. -/
theorem C1_validate_response_witness :
    APIManager.validate_response ⟨400, "bad", none⟩ =
      Except.error (PyError.valueError "bad")
    ∧ APIManager.validate_response ⟨500, "boom", none⟩ =
      Except.error (PyError.httpError 500 "boom")
    ∧ APIManager.validate_response ⟨200, "okay", none⟩ = Except.ok () :=
  ⟨(C1_validate_response_amended ⟨400, "bad", none⟩).1 (Or.inl rfl),
   (C1_validate_response_amended ⟨500, "boom", none⟩).2.1 (by decide)
     (by decide) (by decide) (by decide),
   (C1_validate_response_amended ⟨200, "okay", none⟩).2.2 (Or.inl (by decide))⟩

/-- C4: `is_access_token_valid` is a function of the token and the clock
    value only (it is a plain function in this embedding, mirroring the
    side-effect-free comparison in the source), it returns true exactly
    when `now < requested_at + expires_in`, it returns false once
    `requested_at + expires_in ≤ now`, and a token just returned by a
    successful fetch with positive `expires_in` is valid at the fetch
    timestamp. -/
theorem C4_is_access_token_valid (tok : AccessToken) (now : Int)
    (r : HttpResponse) (t : AccessToken) :
    (APIManager.is_access_token_valid tok now = true ↔
      now < tok.requested_at + tok.expires_in)
    ∧ (tok.requested_at + tok.expires_in ≤ now →
      APIManager.is_access_token_valid tok now = false)
    ∧ (APIManager.fetch_access_token now r = Except.ok t →
      t.requested_at = now ∧
      (0 < t.expires_in →
        APIManager.is_access_token_valid t now = true)) := by
  refine ⟨?_, ?_, fun hf => ?_⟩
  · simp [APIManager.is_access_token_valid]
  · intro h
    simp only [APIManager.is_access_token_valid, gt_iff_lt,
      decide_eq_false_iff_not, not_lt]
    omega
  · have hreq := fetch_access_token_requested_at now r t hf
    refine ⟨hreq, fun hpos => ?_⟩
    simp only [APIManager.is_access_token_valid, hreq, gt_iff_lt,
      decide_eq_true_eq]
    omega

/-- C4, witness: a token fetched at time 100 with lifetime 3600 is valid
    at 100, and an expired token is reported invalid at 3601. -/
theorem C4_is_access_token_valid_witness :
    APIManager.is_access_token_valid ⟨"T1", 3600, 0⟩ 3601 = false
    ∧ ((⟨"NEW", 3600, 100⟩ : AccessToken).requested_at = 100
      ∧ (0 < (⟨"NEW", 3600, 100⟩ : AccessToken).expires_in →
        APIManager.is_access_token_valid ⟨"NEW", 3600, 100⟩ 100 = true)) :=
  ⟨(C4_is_access_token_valid ⟨"T1", 3600, 0⟩ 3601 ⟨200, "", none⟩
      ⟨"", 0, 0⟩).2.1 (by decide),
   (C4_is_access_token_valid ⟨"NEW", 3600, 100⟩ 100
      ⟨200, "",
       some (JValue.obj
         [("access_token", JValue.str "NEW"), ("expires_in", JValue.int 3600)])⟩
      ⟨"NEW", 3600, 100⟩).2.2 rfl⟩

/-- C5, counterexample: the token endpoint answers 500 with a malformed
    body; `fetch_access_token` surfaces the JSON parse error of
    `r.json()`, not the HTTP error, because the body is parsed before
    `raise_for_status` runs. -/
theorem C5_counterexample :
    APIManager.fetch_access_token 0 ⟨500, "oops", none⟩ =
      Except.error PyError.jsonParseError
    ∧ APIManager.fetch_access_token 0 ⟨500, "oops", none⟩ ≠
      Except.error (PyError.httpError 500 "oops") :=
  ⟨rfl, by simp [APIManager.fetch_access_token]⟩

/-- C5, amended: the status check happens after the body parse, so a
    4xx/5xx token response whose body does parse as JSON fails with the
    HTTP error (the `AuthenticationError` of the spec), while a response
    with a malformed body fails with the parse error regardless of its
    status — a malformed-but-error response surfaces the parse error,
    not the HTTP error. -/
theorem C5_fetch_status_after_parse_amended (now : Int) (status : Nat)
    (content : String) (js : JValue) (h1 : 400 ≤ status)
    (h2 : status < 600) :
    APIManager.fetch_access_token now ⟨status, content, some js⟩ =
      Except.error (PyError.httpError status content)
    ∧ APIManager.fetch_access_token now ⟨status, content, none⟩ =
      Except.error PyError.jsonParseError := by
  constructor
  · have hr : raise_for_status ⟨status, content, some js⟩ =
        Except.error (PyError.httpError status content) :=
      raise_for_status_fail ⟨status, content, some js⟩ h1 h2
    simp [APIManager.fetch_access_token, hr]
  · rfl

/-- C5, witness: a 500 token response with an empty JSON object body
    fails with the HTTP error, and one with a malformed body fails with
    the parse error. -/
theorem C5_fetch_status_after_parse_witness :
    APIManager.fetch_access_token 0 ⟨500, "err", some (JValue.obj [])⟩ =
      Except.error (PyError.httpError 500 "err")
    ∧ APIManager.fetch_access_token 0 ⟨500, "err", none⟩ =
      Except.error PyError.jsonParseError :=
  C5_fetch_status_after_parse_amended 0 500 "err" (JValue.obj [])
    (by decide) (by decide)

/-- C7: the resource authorization header is exactly the two-entry map
    with `content-type: application/json` and `Authorization` set to
    `Bearer` plus the stored token, and the token-endpoint header is
    Basic auth with the base64 of `clientId:clientSecret` and
    `content-type: application/x-www-form-urlencoded`; the base64
    encoder is checked on the standard vector `user:pass`. -/
theorem C7_headers (client_id client_secret : String) (tok : AccessToken) :
    APIManager.get_authorization_header tok =
      [("content-type", "application/json"),
       ("Authorization", "Bearer " ++ tok.access_token)]
    ∧ APIManager.get_token_authorization_header client_id client_secret =
      [("content-type", "application/x-www-form-urlencoded"),
       ("Authorization",
        "Basic " ++ b64encode (client_id ++ ":" ++ client_secret))]
    ∧ b64encode "user:pass" = "dXNlcjpwYXNz" :=
  ⟨rfl, rfl, by decide⟩

/-- C8: `get_api_url` is the hostname followed by `/api/v3/`,
    `get_auth_url` is the hostname followed by the client-credentials
    token path, and every request built by the four public operations
    targets `get_api_url` plus the route. -/
theorem C8_urls (hostname route : String) (params : List (String × String))
    (body : JValue) (tok : AccessToken) (lib : GzipLib)
    (compression : Bool) :
    APIManager.get_api_url hostname = hostname ++ "/api/v3/"
    ∧ APIManager.get_auth_url hostname =
      hostname ++ "/oauth/token?grant_type=client_credentials&scope=ALL"
    ∧ (APIManager.build_get hostname route params tok).url =
      APIManager.get_api_url hostname ++ route
    ∧ (APIManager.build_post lib compression hostname route body tok).url =
      APIManager.get_api_url hostname ++ route
    ∧ (APIManager.build_put lib compression hostname route body tok).url =
      APIManager.get_api_url hostname ++ route
    ∧ (APIManager.build_delete hostname route tok).url =
      APIManager.get_api_url hostname ++ route := by
  refine ⟨rfl, rfl, rfl, ?_, ?_, rfl⟩ <;> cases compression <;> rfl

/-- C6: construction fails with the configuration `ValueError` when the
    client id is empty (for every hostname and before any network
    action), likewise for an empty client secret; it fails with the
    configuration `ValueError` naming the hostname when the preflight
    HEAD probe raises a connection error; and on success it performs the
    initial token fetch and stores the fetched token in the state. -/
theorem C6_init (client_id client_secret hostname : String)
    (compression : Bool) (connErr : Bool) (now : Int) (r : HttpResponse)
    (tok : AccessToken) :
    (client_id = "" →
      APIManager.init client_id client_secret hostname compression connErr
          now r =
        (Except.error (PyError.valueError "client_id cannot be null or empty."),
         []))
    ∧ (client_id ≠ "" → client_secret = "" →
      APIManager.init client_id client_secret hostname compression connErr
          now r =
        (Except.error
           (PyError.valueError "client_secret cannot be null or empty."),
         []))
    ∧ (client_id ≠ "" → client_secret ≠ "" → connErr = true →
      APIManager.init client_id client_secret hostname compression connErr
          now r =
        (Except.error
           (PyError.valueError ("Host at " ++ hostname ++ " is not reachable")),
         [NetEvent.headProbe]))
    ∧ (client_id ≠ "" → client_secret ≠ "" → connErr = false →
      APIManager.fetch_access_token now r = Except.ok tok →
      APIManager.init client_id client_secret hostname compression connErr
          now r =
        (Except.ok ⟨client_id, client_secret, hostname, compression, tok⟩,
         [NetEvent.headProbe, NetEvent.tokenFetch])) := by
  refine ⟨fun h1 => ?_, fun h1 h2 => ?_, fun h1 h2 h3 => ?_,
    fun h1 h2 h3 h4 => ?_⟩
  · simp [APIManager.init, h1]
  · simp [APIManager.init, h1, h2]
  · simp [APIManager.init, h1, h2, h3]
  · simp [APIManager.init, h1, h2, h3, h4]

/-- C6, witness: the four branches at concrete inputs — empty id, empty
    secret, failing probe, and a successful construction that stores the
    fetched token. -/
theorem C6_init_witness :
    APIManager.init "" "sec" "https://h" true false 0 ⟨200, "", none⟩ =
      (Except.error (PyError.valueError "client_id cannot be null or empty."),
       [])
    ∧ APIManager.init "id" "" "https://h" true false 0 ⟨200, "", none⟩ =
      (Except.error
         (PyError.valueError "client_secret cannot be null or empty."),
       [])
    ∧ APIManager.init "id" "sec" "https://h" true true 0 ⟨200, "", none⟩ =
      (Except.error
         (PyError.valueError "Host at https://h is not reachable"),
       [NetEvent.headProbe])
    ∧ APIManager.init "id" "sec" "https://h" true false 0
        ⟨200, "",
         some (JValue.obj
           [("access_token", JValue.str "T1"),
            ("expires_in", JValue.int 3600)])⟩ =
      (Except.ok ⟨"id", "sec", "https://h", true, ⟨"T1", 3600, 0⟩⟩,
       [NetEvent.headProbe, NetEvent.tokenFetch]) :=
  ⟨(C6_init "" "sec" "https://h" true false 0 ⟨200, "", none⟩
      ⟨"", 0, 0⟩).1 rfl,
   (C6_init "id" "" "https://h" true false 0 ⟨200, "", none⟩
      ⟨"", 0, 0⟩).2.1 (by decide) rfl,
   (C6_init "id" "sec" "https://h" true true 0 ⟨200, "", none⟩
      ⟨"", 0, 0⟩).2.2.1 (by decide) (by decide) rfl,
   (C6_init "id" "sec" "https://h" true false 0
      ⟨200, "",
       some (JValue.obj
         [("access_token", JValue.str "T1"), ("expires_in", JValue.int 3600)])⟩
      ⟨"T1", 3600, 0⟩).2.2.2 (by decide) (by decide) rfl rfl⟩

/-- C2: for each of the four public operations, a call with an expired
    stored token performs exactly one token fetch, whose result becomes
    the stored token and is the token the single resource request is
    built from, with the fetch event strictly before the request event;
    a call with a valid stored token performs no fetch and builds the
    request from the unchanged stored token. -/
theorem C2_refresh_exactly_once (hostname route : String)
    (params : List (String × String)) (body : JValue) (lib : GzipLib)
    (compression : Bool) (tok t : AccessToken) (now : Int)
    (authResp : HttpResponse) (oracle : SentRequest → HttpResponse) :
    (APIManager.is_access_token_valid tok now = false →
      APIManager.fetch_access_token now authResp = Except.ok t →
      APIManager.get_op hostname tok now authResp oracle route params =
        ((APIManager.resource_call oracle
            (APIManager.build_get hostname route params t)).1, t,
         [Event.fetchToken,
          Event.request (APIManager.build_get hostname route params t)])
      ∧ APIManager.post_op lib compression hostname tok now authResp oracle
          route body =
        ((APIManager.resource_call oracle
            (APIManager.build_post lib compression hostname route body t)).1,
         t,
         [Event.fetchToken,
          Event.request
            (APIManager.build_post lib compression hostname route body t)])
      ∧ APIManager.put_op lib compression hostname tok now authResp oracle
          route body =
        ((APIManager.resource_call oracle
            (APIManager.build_put lib compression hostname route body t)).1,
         t,
         [Event.fetchToken,
          Event.request
            (APIManager.build_put lib compression hostname route body t)])
      ∧ APIManager.delete_op hostname tok now authResp oracle route =
        ((APIManager.resource_call oracle
            (APIManager.build_delete hostname route t)).1, t,
         [Event.fetchToken,
          Event.request (APIManager.build_delete hostname route t)]))
    ∧ (APIManager.is_access_token_valid tok now = true →
      APIManager.get_op hostname tok now authResp oracle route params =
        ((APIManager.resource_call oracle
            (APIManager.build_get hostname route params tok)).1, tok,
         [Event.request (APIManager.build_get hostname route params tok)])
      ∧ APIManager.post_op lib compression hostname tok now authResp oracle
          route body =
        ((APIManager.resource_call oracle
            (APIManager.build_post lib compression hostname route body tok)).1,
         tok,
         [Event.request
            (APIManager.build_post lib compression hostname route body tok)])
      ∧ APIManager.put_op lib compression hostname tok now authResp oracle
          route body =
        ((APIManager.resource_call oracle
            (APIManager.build_put lib compression hostname route body tok)).1,
         tok,
         [Event.request
            (APIManager.build_put lib compression hostname route body tok)])
      ∧ APIManager.delete_op hostname tok now authResp oracle route =
        ((APIManager.resource_call oracle
            (APIManager.build_delete hostname route tok)).1, tok,
         [Event.request (APIManager.build_delete hostname route tok)])) := by
  constructor
  · intro hv hf
    exact ⟨authenticate_expired now authResp tok t _ hv hf,
      authenticate_expired now authResp tok t _ hv hf,
      authenticate_expired now authResp tok t _ hv hf,
      authenticate_expired now authResp tok t _ hv hf⟩
  · intro hv
    exact ⟨authenticate_valid now authResp tok _ hv,
      authenticate_valid now authResp tok _ hv,
      authenticate_valid now authResp tok _ hv,
      authenticate_valid now authResp tok _ hv⟩

/-- C2, witness: with a token expired at time 100 and a token endpoint
    answering a fresh one-hour token, `get` fetches once, stores the new
    token and sends the request with it; with the fresh token at time
    100, `get` sends directly with no fetch. -/
theorem C2_refresh_exactly_once_witness :
    (APIManager.is_access_token_valid ⟨"OLD", 10, 0⟩ 100 = false
    ∧ APIManager.get_op "https://h" ⟨"OLD", 10, 0⟩ 100
        ⟨200, "",
         some (JValue.obj
           [("access_token", JValue.str "NEW"),
            ("expires_in", JValue.int 3600)])⟩
        (fun _ => ⟨200, "ok", none⟩) "owners" [] =
      ((APIManager.resource_call (fun _ => ⟨200, "ok", none⟩)
          (APIManager.build_get "https://h" "owners" [] ⟨"NEW", 3600, 100⟩)).1,
       ⟨"NEW", 3600, 100⟩,
       [Event.fetchToken,
        Event.request
          (APIManager.build_get "https://h" "owners" [] ⟨"NEW", 3600, 100⟩)]))
    ∧ (APIManager.is_access_token_valid ⟨"NEW", 3600, 100⟩ 100 = true
    ∧ APIManager.get_op "https://h" ⟨"NEW", 3600, 100⟩ 100 ⟨200, "", none⟩
        (fun _ => ⟨200, "ok", none⟩) "owners" [] =
      ((APIManager.resource_call (fun _ => ⟨200, "ok", none⟩)
          (APIManager.build_get "https://h" "owners" [] ⟨"NEW", 3600, 100⟩)).1,
       ⟨"NEW", 3600, 100⟩,
       [Event.request
          (APIManager.build_get "https://h" "owners" [] ⟨"NEW", 3600, 100⟩)])) :=
  ⟨⟨by decide,
    ((C2_refresh_exactly_once "https://h" "owners" [] (JValue.obj [])
        ⟨fun _ => [], fun _ => some ""⟩ true ⟨"OLD", 10, 0⟩ ⟨"NEW", 3600, 100⟩
        100
        ⟨200, "",
         some (JValue.obj
           [("access_token", JValue.str "NEW"),
            ("expires_in", JValue.int 3600)])⟩
        (fun _ => ⟨200, "ok", none⟩)).1 (by decide) rfl).1⟩,
   ⟨by decide,
    ((C2_refresh_exactly_once "https://h" "owners" [] (JValue.obj [])
        ⟨fun _ => [], fun _ => some ""⟩ true ⟨"NEW", 3600, 100⟩ ⟨"", 0, 0⟩
        100 ⟨200, "", none⟩ (fun _ => ⟨200, "ok", none⟩)).2 (by decide)).1⟩⟩

/-- C10: when the stored token is expired and the fetch fails, every
    operation wrapped by `authenticate` — and in particular each of the
    four public operations — propagates the fetch error, leaves the
    stored token exactly as it was, and sends no resource request: the
    event trace holds only the token fetch attempt. -/
theorem C10_fetch_failure_frame (hostname route : String)
    (params : List (String × String)) (body : JValue) (lib : GzipLib)
    (compression : Bool) (tok : AccessToken) (now : Int)
    (authResp : HttpResponse) (oracle : SentRequest → HttpResponse)
    (e : PyError)
    (hv : APIManager.is_access_token_valid tok now = false)
    (hf : APIManager.fetch_access_token now authResp = Except.error e) :
    (∀ {α : Type} (func : AccessToken → Except PyError α × List Event),
      authenticate now authResp tok func =
        (Except.error e, tok, [Event.fetchToken]))
    ∧ APIManager.get_op hostname tok now authResp oracle route params =
      (Except.error e, tok, [Event.fetchToken])
    ∧ APIManager.post_op lib compression hostname tok now authResp oracle
        route body = (Except.error e, tok, [Event.fetchToken])
    ∧ APIManager.put_op lib compression hostname tok now authResp oracle
        route body = (Except.error e, tok, [Event.fetchToken])
    ∧ APIManager.delete_op hostname tok now authResp oracle route =
      (Except.error e, tok, [Event.fetchToken]) :=
  ⟨fun func => authenticate_fetch_error now authResp tok func e hv hf,
   authenticate_fetch_error now authResp tok _ e hv hf,
   authenticate_fetch_error now authResp tok _ e hv hf,
   authenticate_fetch_error now authResp tok _ e hv hf,
   authenticate_fetch_error now authResp tok _ e hv hf⟩

/-- C10, witness: an expired token and a 500 from the token endpoint —
    `get` surfaces the HTTP error, keeps the old token, and sends
    nothing. -/
theorem C10_fetch_failure_frame_witness :
    APIManager.get_op "https://h" ⟨"OLD", 10, 0⟩ 100
        ⟨500, "err", some (JValue.obj [])⟩ (fun _ => ⟨200, "ok", none⟩)
        "owners" [] =
      (Except.error (PyError.httpError 500 "err"), ⟨"OLD", 10, 0⟩,
       [Event.fetchToken]) :=
  (C10_fetch_failure_frame "https://h" "owners" [] (JValue.obj [])
      ⟨fun _ => [], fun _ => some ""⟩ true ⟨"OLD", 10, 0⟩ 100
      ⟨500, "err", some (JValue.obj [])⟩ (fun _ => ⟨200, "ok", none⟩)
      (PyError.httpError 500 "err") (by decide) rfl).2.1

/-- A concrete gzip codec used to instantiate the compression theorem:
    deflate stores the code points, inflate turns them back into a
    string. -/
def idGzipLib : GzipLib where
  deflate := fun s => s.toList.map Char.toNat
  inflate := fun bs => some (String.mk (bs.map Char.ofNat))

/-- The concrete codec really is a codec: inflate inverts deflate. -/
theorem idGzipLib_roundtrip (s : String) :
    idGzipLib.inflate (idGzipLib.deflate s) = some s := by
  show some (String.mk ((s.toList.map Char.toNat).map Char.ofNat)) = some s
  rw [List.map_map]
  have h : (Char.ofNat ∘ Char.toNat) = id := funext fun c => Char.ofNat_toNat c
  rw [h, List.map_id]
  rfl

/-- C3: for every body and route, with compression enabled the POST/PUT
    payload is the stream produced by one `GzipFile` — a valid gzip
    stream with exactly one member — whose decompressed content is the
    JSON encoding of the body, and the headers carry
    `content-encoding: gzip`; with compression disabled the payload is
    the JSON encoding directly and no `content-encoding` header is
    present. Stated for every gzip codec whose inflate inverts its
    deflate, which is the contract of the external gzip library. -/
theorem C3_compression (lib : GzipLib)
    (hrt : ∀ s, lib.inflate (lib.deflate s) = some s)
    (hostname route : String) (body : JValue) (tok : AccessToken) :
    ((APIManager.build_post lib true hostname route body tok).payload =
        Payload.gzipStream (APIManager.gzip_encode lib (json_dumps body))
      ∧ (APIManager.build_put lib true hostname route body tok).payload =
        Payload.gzipStream (APIManager.gzip_encode lib (json_dumps body))
      ∧ (∃ m, APIManager.gzip_encode lib (json_dumps body) = [m]
          ∧ lib.inflate m = some (json_dumps body))
      ∧ gzip_decompress lib (APIManager.gzip_encode lib (json_dumps body)) =
        some (json_dumps body)
      ∧ dictLookup
          (APIManager.build_post lib true hostname route body tok).headers
          "content-encoding" = some "gzip"
      ∧ dictLookup
          (APIManager.build_put lib true hostname route body tok).headers
          "content-encoding" = some "gzip")
    ∧ ((APIManager.build_post lib false hostname route body tok).payload =
        Payload.raw (json_dumps body)
      ∧ (APIManager.build_put lib false hostname route body tok).payload =
        Payload.raw (json_dumps body)
      ∧ dictLookup
          (APIManager.build_post lib false hostname route body tok).headers
          "content-encoding" = none
      ∧ dictLookup
          (APIManager.build_put lib false hostname route body tok).headers
          "content-encoding" = none) := by
  refine ⟨⟨rfl, rfl, ⟨lib.deflate (json_dumps body), rfl, hrt _⟩, ?_, ?_, ?_⟩,
    rfl, rfl, ?_, ?_⟩
  · simp [gzip_decompress, APIManager.gzip_encode, hrt]
  · simp [APIManager.build_post, APIManager.get_authorization_header,
      dictUpdate, dictLookup]
  · simp [APIManager.build_put, APIManager.get_authorization_header,
      dictUpdate, dictLookup]
  · simp [APIManager.build_post, APIManager.get_authorization_header,
      dictLookup]
  · simp [APIManager.build_put, APIManager.get_authorization_header,
      dictLookup]

/-- C3, witness: the concrete codec on the body of the spec scenario —
    the payload decompresses back to the JSON text, and the compressed
    request carries the gzip content-encoding header. -/
theorem C3_compression_witness :
    gzip_decompress idGzipLib
        (APIManager.gzip_encode idGzipLib
          (json_dumps (JValue.obj [("x", JValue.int 1)]))) =
      some (json_dumps (JValue.obj [("x", JValue.int 1)]))
    ∧ dictLookup
        (APIManager.build_post idGzipLib true "https://h" "events"
          (JValue.obj [("x", JValue.int 1)]) ⟨"T", 3600, 0⟩).headers
        "content-encoding" = some "gzip" :=
  ⟨(C3_compression idGzipLib idGzipLib_roundtrip "https://h" "events"
      (JValue.obj [("x", JValue.int 1)]) ⟨"T", 3600, 0⟩).1.2.2.2.1,
   (C3_compression idGzipLib idGzipLib_roundtrip "https://h" "events"
      (JValue.obj [("x", JValue.int 1)]) ⟨"T", 3600, 0⟩).1.2.2.2.2.1⟩

/-- C9: the defaults of the public operations are evaluated once, when
    the module body defines the functions, and every call omitting the
    argument is bound to that same container — two omitting calls alias
    one container, contradicting the claimed per-call construction; the
    spec-modelled per-call variant does give distinct containers. -/
theorem C9_shared_default_container :
    (bindGetParams defineModuleDefaults.1 defineModuleDefaults.2 none).1 =
      (bindGetParams defineModuleDefaults.1
        (bindGetParams defineModuleDefaults.1 defineModuleDefaults.2 none).2
        none).1
    ∧ (bindGetParamsFresh defineModuleDefaults.2 none).1 ≠
      (bindGetParamsFresh
        (bindGetParamsFresh defineModuleDefaults.2 none).2 none).1 := by
  decide

end Mnubo
